import Mathlib

/-
Shallow embedding of the streaming core of im-api/headless-rtmp-broadcast
(src/streamer_core.py and the equivalent mixin decomposition under src/core/).

Modelling conventions:
- Python floats (positions, durations, monotonic timestamps) are modelled as
  exact rationals (Rat); every operation the core performs on them
  (comparison, subtraction, max) is exact, so the control flow is preserved.
- Subprocess handles are modelled as process ids allocated from a counter
  (next_pid) held in the state; whether a process has exited is an input of
  each step, given by Env.poll (the result of Popen.poll(): none while the
  process runs, some exit code after it exits).  Spawning can fail with
  FileNotFoundError; Env.spawn_encoder_ok / Env.spawn_audio_ok say whether the
  spawn attempt in the current step succeeds.
- Env.now is the value time.monotonic() returns during the step.
- Threads, the log ring buffer and the actual bytes flowing through the pipes
  are not modelled; no claim refers to them.  The _append_log calls only
  append to the log list and mutate nothing else.
- The two overlay text files are modelled by their contents
  (none = file absent, some s = file exists with contents s).
-/

/-- Supervisor state, following PlayerState.__init__ (src/streamer_core.py
lines 47-97) and BaseState.__init__ (src/core/base_state.py lines 10-79,
which additionally owns the two overlay files and the video worker handle). -/
structure PState where
  playlist : List String
  current_index : Int
  status : String
  position_sec : Rat
  last_start_monotonic : Rat
  video_file : Option String
  overlay_text : String
  rtmp_url : String
  ffmpeg_path : String
  audio_bitrate : String
  video_bitrate : String
  maxrate : String
  bufsize : String
  video_fps : Int
  encoder_proc : Option Nat
  audio_proc : Option Nat
  video_proc : Option Nat
  stop_audio_pump : Bool
  stop_flag : Bool
  track_durations : List (String × Rat)
  consecutive_failures : Nat
  recent_seek_time : Rat
  overlay_file_contents : Option String
  now_playing_contents : Option String
  next_pid : Nat
  deriving Repr, DecidableEq

/-- External-world inputs of one step: poll results of the processes, success
of spawn attempts, whether a pipeline restart raises, and the monotonic
clock.  probe_raw gives, per path, the outcome of the ffprobe subprocess of
_probe_duration after stripping and float-parsing its output: none covers
every error path caught by the except clause (tool missing, non-zero exit,
empty output, unparsable output), some v a successfully parsed value. -/
structure Env where
  poll : Nat → Option Int
  spawn_encoder_ok : Bool
  spawn_audio_ok : Bool
  restart_raises : Bool
  now : Rat
  probe_raw : String → Option Rat

/-- Dictionary lookup on the association-list model of a Python dict. -/
def dict_get (m : List (String × Rat)) (k : String) : Option Rat :=
  match m with
  | [] => none
  | kv :: rest => if kv.1 = k then some kv.2 else dict_get rest k

/-- Truth of `self.encoder_proc and self.encoder_proc.poll() is None`
(src/streamer_core.py line 309 and similar guards): a handle is present and
its poll result is None. -/
def encoder_alive (env : Env) (st : PState) : Bool :=
  Option.elim st.encoder_proc false (fun p => (env.poll p).isNone)

/-- Model of _kill_encoder_unlocked (src/streamer_core.py lines 240-254):
terminates the encoder if running and clears the handle. -/
def kill_encoder_unlocked (st : PState) : PState :=
  { st with encoder_proc := none }

/-- Model of _kill_audio_unlocked (src/streamer_core.py lines 256-272):
signals the pump to stop and clears the decoder handle. -/
def kill_audio_unlocked (st : PState) : PState :=
  { st with stop_audio_pump := true, audio_proc := none }

/-- Model of _kill_ffmpeg_unlocked (src/streamer_core.py lines 274-279):
audio decoder first, then encoder. -/
def kill_ffmpeg_unlocked (st : PState) : PState :=
  kill_encoder_unlocked (kill_audio_unlocked st)

/-- Model of _start_encoder_unlocked (src/streamer_core.py lines 302-416):
no-op when the encoder is already alive; otherwise clears previous state,
aborts on missing video file or empty RTMP URL, then spawns the encoder.
On FileNotFoundError the handle stays none and status becomes stopped; on
success the consecutive-failure counter is reset to zero (line 416). -/
def start_encoder_unlocked (env : Env) (st : PState) : PState :=
  if encoder_alive env st then st
  else
    let st1 := kill_encoder_unlocked st
    if st1.video_file.isNone then st1
    else if st1.rtmp_url = "" then st1
    else if env.spawn_encoder_ok then
      { st1 with encoder_proc := some st1.next_pid,
                 next_pid := st1.next_pid + 1,
                 consecutive_failures := 0 }
    else
      { st1 with encoder_proc := none, status := "stopped" }

/-- Index normalisation done at src/streamer_core.py lines 426-427 and
603-605: an out-of-range current_index is reset to 0. -/
def normalize_index (st : PState) : PState :=
  if st.current_index < 0 ∨ (st.playlist.length : Int) ≤ st.current_index then
    { st with current_index := 0 }
  else st

/-- Model of _start_audio_unlocked (src/streamer_core.py lines 418-480):
aborts on empty playlist, normalises the index, aborts when the encoder is
not alive, kills any previous decoder, spawns the new one (FileNotFoundError
leaves the handle none and sets status stopped), then clears the pump stop
flag and starts the pump thread. -/
def start_audio_unlocked (env : Env) (start_sec : Rat) (st : PState) : PState :=
  if st.playlist.isEmpty then st
  else
    let st1 := normalize_index st
    if ¬ encoder_alive env st1 then st1
    else
      let st2 := kill_audio_unlocked st1
      if env.spawn_audio_ok then
        { st2 with audio_proc := some st2.next_pid,
                   next_pid := st2.next_pid + 1,
                   stop_audio_pump := false }
      else
        { st2 with audio_proc := none, status := "stopped" }

/-- Model of _get_position_unlocked (src/streamer_core.py lines 785-793). -/
def get_position_unlocked (env : Env) (st : PState) : Rat :=
  if st.status = "playing" then st.position_sec + (env.now - st.last_start_monotonic)
  else st.position_sec

/-- Model of _start_pipeline_unlocked (src/streamer_core.py lines 536-563):
ensures the encoder runs, starts the audio decoder, then resets the position
anchor and sets status playing. -/
def start_pipeline_unlocked (env : Env) (start_sec : Rat) (st : PState) : PState :=
  if st.playlist.isEmpty then { st with status := "stopped" }
  else if st.video_file.isNone then { st with status := "stopped" }
  else
    let st1 := start_encoder_unlocked env st
    if ¬ encoder_alive env st1 then { st1 with status := "error" }
    else
      let st2 := start_audio_unlocked env start_sec st1
      { st2 with last_start_monotonic := env.now,
                 position_sec := max 0 start_sec,
                 status := "playing" }

/-- Model of _restart_full_pipeline_unlocked (src/streamer_core.py lines
565-573): kill both workers, then start the pipeline. -/
def restart_full_pipeline_unlocked (env : Env) (start_sec : Rat) (st : PState) : PState :=
  start_pipeline_unlocked env start_sec (kill_ffmpeg_unlocked st)

/-- Shared tail of both _advance_track_unlocked variants (src/streamer_core.py
lines 620-638 = src/core/playlist_mixin.py lines 47-65), taking the state
after the new index and position 0 have been stored: ensure the encoder runs
(a no-op when it is alive), and if it is running start a fresh decoder at
offset 0 and go to playing, else log and stop with position 0. -/
def advance_finish (env : Env) (st2 : PState) : PState :=
  let st3 := start_encoder_unlocked env st2
  if encoder_alive env st3 then
    let st4 := start_audio_unlocked env 0 st3
    { st4 with last_start_monotonic := env.now, status := "playing" }
  else
    { st3 with status := "stopped", position_sec := 0 }

/-- Model of _advance_track_unlocked (src/streamer_core.py lines 587-638):
empty playlist stops; index is normalised; at the last index without queue
looping the decoder is killed and playback stops at position 0; otherwise the
index wraps to 0 from the last position or increments, position resets to 0,
and the pipeline tail advance_finish runs. -/
def advance_track_unlocked (env : Env) (loop_queue : Bool) (st : PState) : PState :=
  if st.playlist.isEmpty then { st with status := "stopped" }
  else
    let st1 := normalize_index st
    let last_index : Int := (st1.playlist.length : Int) - 1
    if st1.current_index = last_index ∧ loop_queue = false then
      let st2 := kill_audio_unlocked st1
      { st2 with status := "stopped", position_sec := 0 }
    else
      let next_index : Int :=
        if st1.current_index = last_index then 0 else st1.current_index + 1
      advance_finish env { st1 with current_index := next_index, position_sec := 0 }

/-- Model of the mixin variant _advance_track_unlocked
(src/core/playlist_mixin.py lines 7-65), whose only difference is the
next-index computation: with looping it is (index + 1) mod length, without
looping it is index + 1 capped at the last index. -/
def advance_track_unlocked_mixin (env : Env) (loop_queue : Bool) (st : PState) : PState :=
  if st.playlist.isEmpty then { st with status := "stopped" }
  else
    let st1 := normalize_index st
    let last_index : Int := (st1.playlist.length : Int) - 1
    if st1.current_index = last_index ∧ loop_queue = false then
      let st2 := kill_audio_unlocked st1
      { st2 with status := "stopped", position_sec := 0 }
    else
      let next_index : Int :=
        if loop_queue then (st1.current_index + 1) % (st1.playlist.length : Int)
        else min (st1.current_index + 1) last_index
      advance_finish env { st1 with current_index := next_index, position_sec := 0 }

/-- Model of skip_next (src/streamer_core.py lines 756-759): advance with the
default loop_queue=True. -/
def skip_next (env : Env) (st : PState) : PState :=
  advance_track_unlocked env true st

/-- Model of the EOF branch of _pump_audio_loop (src/streamer_core.py lines
504-524): when the decoder returns zero bytes, the pump computes recent_seek
from _recent_seek_time (a zero timestamp means no seek ever happened) and
natural_end, advances with loop_queue=True when natural_end holds, and exits
either way.  The Bool result records whether the advance was invoked. -/
def pump_eof_step (env : Env) (st : PState) : Bool × PState :=
  let recent_seek : Bool :=
    decide (st.recent_seek_time ≠ 0) && decide (env.now - st.recent_seek_time < 2)
  let natural_end : Bool :=
    !st.stop_audio_pump && decide (st.status = "playing")
      && !st.playlist.isEmpty && !recent_seek
  if natural_end then (true, advance_track_unlocked env true st)
  else (false, st)

/-- Duration lookup of seek (src/streamer_core.py lines 768-771): the entry
of the duration map for the current track, accepted only when positive. -/
def current_track_duration (st : PState) : Option Rat :=
  match st.playlist.get? st.current_index.toNat with
  | none => none
  | some key =>
    match dict_get st.track_durations key with
    | none => none
    | some d => if 0 < d then some d else none

/-- Model of seek (src/streamer_core.py lines 761-782 and the identical
src/core/control_mixin.py lines 89-110): negative input is clamped to 0; when
the current track has a known positive duration d and the requested offset is
at least d, the offset is clamped to max (d - 1) 0; the position and the
recent-seek timestamp are stored; while playing the pipeline is restarted
from the stored offset. -/
def seek (env : Env) (seconds : Rat) (st : PState) : PState :=
  let s0 : Rat := if seconds < 0 then 0 else seconds
  let duration : Option Rat :=
    if st.playlist.isEmpty then none
    else if st.current_index < 0 ∨ (st.playlist.length : Int) ≤ st.current_index then none
    else current_track_duration st
  let s1 : Rat :=
    match duration with
    | some d => if d ≤ s0 then max (d - 1) 0 else s0
    | none => s0
  let st1 := { st with position_sec := s1, recent_seek_time := env.now }
  if st1.status = "playing" then start_pipeline_unlocked env s1 st1 else st1

/-- Model of _probe_duration (src/streamer_core.py lines 119-145 and
src/core/durations_mixin.py lines 9-35).  The argument is the parsed outcome
of the ffprobe run as described on Env.probe_raw; the function returns none
for a parsed value below zero and the value itself otherwise. -/
def probe_duration (raw : Option Rat) : Option Rat :=
  match raw with
  | none => none
  | some v => if v < 0 then none else some v

/-- Rebuild of the duration map done by
_update_durations_for_playlist_unlocked (src/streamer_core.py lines 147-161):
for each playlist entry in order, keep the previous value when present, else
probe; entries whose probe fails are absent. -/
def build_durations (env : Env) (old : List (String × Rat)) :
    List String → List (String × Rat)
  | [] => []
  | p :: rest =>
    (match dict_get old p with
     | some d => [(p, d)]
     | none =>
       match probe_duration (env.probe_raw p) with
       | some d => [(p, d)]
       | none => []) ++ build_durations env old rest

/-- Model of _update_durations_for_playlist_unlocked (src/streamer_core.py
lines 147-161). -/
def update_durations_for_playlist_unlocked (env : Env) (st : PState) : PState :=
  { st with track_durations := build_durations env st.track_durations st.playlist }

/-- Model of load_playlist (src/streamer_core.py lines 643-649): replace the
playlist, reset index and position, refresh durations. -/
def load_playlist (env : Env) (paths : List String) (st : PState) : PState :=
  update_durations_for_playlist_unlocked env
    { st with playlist := paths, current_index := 0, position_sec := 0 }

/-- First index of target in the list, modelling the search loop of
set_playlist_order (src/streamer_core.py lines 665-670). -/
def find_index (target : String) : List String → Option Nat
  | [] => none
  | p :: rest =>
    if p = target then some 0
    else (find_index target rest).map (fun i => i + 1)

/-- Model of set_playlist_order (src/streamer_core.py lines 651-676): replace
the playlist; keep pointing at the previously current path when it is still
present, else index 0; reset position; refresh durations. -/
def set_playlist_order (env : Env) (paths : List String) (st : PState) : PState :=
  let old_current : Option String :=
    if st.playlist.isEmpty then none
    else st.playlist.get? st.current_index.toNat
  let st1 := { st with playlist := paths }
  let new_index : Int :=
    match old_current with
    | none => 0
    | some oc =>
      match find_index oc st1.playlist with
      | some i => (i : Int)
      | none => 0
  update_durations_for_playlist_unlocked env
    { st1 with current_index := new_index, position_sec := 0 }

/-- Model of play_index (src/streamer_core.py lines 725-739): rejected on an
empty playlist or an out-of-range index, otherwise jump and play from 0. -/
def play_index (env : Env) (index : Int) (st : PState) : PState :=
  if st.playlist.isEmpty then st
  else if index < 0 ∨ (st.playlist.length : Int) ≤ index then st
  else
    start_pipeline_unlocked env 0 { st with current_index := index, position_sec := 0 }

/-- Model of play (src/streamer_core.py lines 716-723). -/
def play (env : Env) (st : PState) : PState :=
  if st.status = "stopped" ∨ st.status = "paused" ∨ st.status = "error" then
    start_pipeline_unlocked env st.position_sec st
  else st

/-- Model of pause (src/streamer_core.py lines 741-747): snapshot the live
position, kill both workers, set paused. -/
def pause (env : Env) (st : PState) : PState :=
  let pos := get_position_unlocked env st
  let st1 := kill_ffmpeg_unlocked { st with position_sec := pos }
  { st1 with status := "paused" }

/-- Model of stop (src/streamer_core.py lines 749-754). -/
def stop (st : PState) : PState :=
  { kill_ffmpeg_unlocked st with status := "stopped", position_sec := 0 }

/-- Configuration dict passed to set_encoder_settings.  Each Option String
field is none when the key is absent; a present value is modelled after
str(value) (the empty string standing for every falsy value).  video_fps is
none when the key is absent, some none when int() of the value raises, and
some (some n) when the conversion yields n. -/
structure EncoderCfg where
  audio_bitrate : Option String
  video_bitrate : Option String
  maxrate : Option String
  bufsize : Option String
  video_fps : Option (Option Int)
  deriving Repr, DecidableEq

/-- Truthiness-guarded update used for each bitrate field of
set_encoder_settings: `val = cfg.get(key); if val: field = str(val)`. -/
def truthy_or_keep (v : Option String) (cur : String) : String :=
  match v with
  | some s => if s = "" then cur else s
  | none => cur

/-- Model of set_encoder_settings (src/streamer_core.py lines 824-854 and the
identical src/core/control_mixin.py lines 152-182): each bitrate field is
replaced only by a present truthy value; video_fps is replaced only when the
int conversion succeeds; nothing else changes and no worker is touched. -/
def set_encoder_settings (cfg : EncoderCfg) (st : PState) : PState :=
  { st with
      audio_bitrate := truthy_or_keep cfg.audio_bitrate st.audio_bitrate,
      video_bitrate := truthy_or_keep cfg.video_bitrate st.video_bitrate,
      maxrate := truthy_or_keep cfg.maxrate st.maxrate,
      bufsize := truthy_or_keep cfg.bufsize st.bufsize,
      video_fps :=
        match cfg.video_fps with
        | some (some n) => n
        | some none => st.video_fps
        | none => st.video_fps }

/-- Model of set_overlay_text (src/streamer_core.py lines 687-694 and
src/core/control_mixin.py lines 15-22): store the text in memory and, while
playing, restart the full pipeline from the live position.  No write to
overlay_text.txt or now_playing.txt occurs on this path. -/
def set_overlay_text (env : Env) (text : String) (st : PState) : PState :=
  let st1 := { st with overlay_text := text }
  if st1.status = "playing" then
    restart_full_pipeline_unlocked env (get_position_unlocked env st1) st1
  else st1

/-- One poll iteration of watcher_loop (src/streamer_core.py lines 856-897
and src/core/watcher_mixin.py lines 5-46): when the encoder has exited while
playing, kill the decoder and clear the handle; exit code 0 stops; otherwise,
with a playlist and no shutdown requested, restart the pipeline from the
live position and set playing (or error when the restart raises); with no
playlist, error. -/
def watcher_step (env : Env) (st : PState) : PState :=
  match st.encoder_proc with
  | none => st
  | some p =>
    if st.status = "playing" then
      match env.poll p with
      | none => st
      | some ret =>
        let st1 := { kill_audio_unlocked st with encoder_proc := none }
        if ret = 0 then { st1 with status := "stopped" }
        else if ¬ st1.playlist.isEmpty ∧ st1.stop_flag = false then
          if env.restart_raises then { st1 with status := "error" }
          else
            let start_sec := get_position_unlocked env st1
            let st2 := restart_full_pipeline_unlocked env start_sec st1
            { st2 with status := "playing" }
        else { st1 with status := "error" }
    else st

/-- Iterated watcher polls, one Env per 1 Hz iteration. -/
def watcher_run (envs : List Env) (st : PState) : PState :=
  envs.foldl (fun s e => watcher_step e s) st

/-- Initial supervisor state, following BaseState.__init__
(src/core/base_state.py lines 10-79), which includes the creation of the two
overlay files with empty contents (lines 30-37); fs_ok is false when that
write raises and is swallowed.  Defaults match PlayerState.__init__ in
src/streamer_core.py with the environment variables unset. -/
def init_state (fs_ok : Bool) : PState :=
  { playlist := []
    current_index := 0
    status := "stopped"
    position_sec := 0
    last_start_monotonic := 0
    video_file := none
    overlay_text := ""
    rtmp_url := "rtmp://example.com/live/streamkey"
    ffmpeg_path := "ffmpeg"
    audio_bitrate := "320k"
    video_bitrate := "800k"
    maxrate := "800k"
    bufsize := "1600k"
    video_fps := 24
    encoder_proc := none
    audio_proc := none
    video_proc := none
    stop_audio_pump := false
    stop_flag := false
    track_durations := []
    consecutive_failures := 0
    recent_seek_time := 0
    overlay_file_contents := if fs_ok then some "" else none
    now_playing_contents := if fs_ok then some "" else none
    next_pid := 0 }

/-
Frame lemmas.  Each states that one helper leaves a state component
untouched, or confines how it can change; they are the building blocks of
the claim proofs below.
-/

lemma normalize_index_playlist (st : PState) :
    (normalize_index st).playlist = st.playlist := by
  unfold normalize_index; split <;> rfl

lemma normalize_index_encoder_proc (st : PState) :
    (normalize_index st).encoder_proc = st.encoder_proc := by
  unfold normalize_index; split <;> rfl

lemma normalize_index_audio_proc (st : PState) :
    (normalize_index st).audio_proc = st.audio_proc := by
  unfold normalize_index; split <;> rfl

lemma normalize_index_status (st : PState) :
    (normalize_index st).status = st.status := by
  unfold normalize_index; split <;> rfl

lemma normalize_index_position (st : PState) :
    (normalize_index st).position_sec = st.position_sec := by
  unfold normalize_index; split <;> rfl

lemma normalize_index_recent_seek (st : PState) :
    (normalize_index st).recent_seek_time = st.recent_seek_time := by
  unfold normalize_index; split <;> rfl

lemma normalize_index_overlay_file (st : PState) :
    (normalize_index st).overlay_file_contents = st.overlay_file_contents := by
  unfold normalize_index; split <;> rfl

lemma normalize_index_now_playing (st : PState) :
    (normalize_index st).now_playing_contents = st.now_playing_contents := by
  unfold normalize_index; split <;> rfl

attribute [simp] normalize_index_playlist normalize_index_encoder_proc
  normalize_index_audio_proc normalize_index_status normalize_index_position
  normalize_index_recent_seek normalize_index_overlay_file
  normalize_index_now_playing

lemma normalize_index_of_ok (st : PState)
    (h : ¬ (st.current_index < 0 ∨ (st.playlist.length : Int) ≤ st.current_index)) :
    normalize_index st = st := by
  unfold normalize_index; simp [h]

lemma normalize_index_current_of_ok (st : PState)
    (h : ¬ (st.current_index < 0 ∨ (st.playlist.length : Int) ≤ st.current_index)) :
    (normalize_index st).current_index = st.current_index := by
  rw [normalize_index_of_ok st h]

lemma normalize_index_current_cases (st : PState) :
    (normalize_index st).current_index = st.current_index ∨
    (normalize_index st).current_index = 0 := by
  unfold normalize_index; split
  · right; rfl
  · left; rfl

lemma encoder_alive_of_eq (env : Env) {st1 st2 : PState}
    (h : st2.encoder_proc = st1.encoder_proc) :
    encoder_alive env st2 = encoder_alive env st1 := by
  unfold encoder_alive; rw [h]

lemma encoder_alive_true_of (env : Env) {st1 st2 : PState}
    (h : st2.encoder_proc = st1.encoder_proc)
    (ha : encoder_alive env st1 = true) :
    encoder_alive env st2 = true := by
  rw [encoder_alive_of_eq env h]; exact ha

lemma start_encoder_of_alive (env : Env) (st : PState)
    (h : encoder_alive env st = true) :
    start_encoder_unlocked env st = st := by
  unfold start_encoder_unlocked; simp [h]

lemma start_encoder_playlist (env : Env) (st : PState) :
    (start_encoder_unlocked env st).playlist = st.playlist := by
  unfold start_encoder_unlocked kill_encoder_unlocked; dsimp only; split_ifs <;> rfl

lemma start_encoder_current (env : Env) (st : PState) :
    (start_encoder_unlocked env st).current_index = st.current_index := by
  unfold start_encoder_unlocked kill_encoder_unlocked; dsimp only; split_ifs <;> rfl

lemma start_encoder_position (env : Env) (st : PState) :
    (start_encoder_unlocked env st).position_sec = st.position_sec := by
  unfold start_encoder_unlocked kill_encoder_unlocked; dsimp only; split_ifs <;> rfl

lemma start_encoder_audio_proc (env : Env) (st : PState) :
    (start_encoder_unlocked env st).audio_proc = st.audio_proc := by
  unfold start_encoder_unlocked kill_encoder_unlocked; dsimp only; split_ifs <;> rfl

lemma start_encoder_recent_seek (env : Env) (st : PState) :
    (start_encoder_unlocked env st).recent_seek_time = st.recent_seek_time := by
  unfold start_encoder_unlocked kill_encoder_unlocked; dsimp only; split_ifs <;> rfl

lemma start_encoder_overlay_file (env : Env) (st : PState) :
    (start_encoder_unlocked env st).overlay_file_contents = st.overlay_file_contents := by
  unfold start_encoder_unlocked kill_encoder_unlocked; dsimp only; split_ifs <;> rfl

lemma start_encoder_now_playing (env : Env) (st : PState) :
    (start_encoder_unlocked env st).now_playing_contents = st.now_playing_contents := by
  unfold start_encoder_unlocked kill_encoder_unlocked; dsimp only; split_ifs <;> rfl

attribute [simp] start_encoder_playlist start_encoder_current
  start_encoder_position start_encoder_audio_proc start_encoder_recent_seek
  start_encoder_overlay_file start_encoder_now_playing

lemma start_audio_playlist (env : Env) (s : Rat) (st : PState) :
    (start_audio_unlocked env s st).playlist = st.playlist := by
  unfold start_audio_unlocked kill_audio_unlocked; dsimp only; split_ifs <;> simp

lemma start_audio_encoder_proc (env : Env) (s : Rat) (st : PState) :
    (start_audio_unlocked env s st).encoder_proc = st.encoder_proc := by
  unfold start_audio_unlocked kill_audio_unlocked; dsimp only; split_ifs <;> simp

lemma start_audio_position (env : Env) (s : Rat) (st : PState) :
    (start_audio_unlocked env s st).position_sec = st.position_sec := by
  unfold start_audio_unlocked kill_audio_unlocked; dsimp only; split_ifs <;> simp

lemma start_audio_recent_seek (env : Env) (s : Rat) (st : PState) :
    (start_audio_unlocked env s st).recent_seek_time = st.recent_seek_time := by
  unfold start_audio_unlocked kill_audio_unlocked; dsimp only; split_ifs <;> simp

lemma start_audio_overlay_file (env : Env) (s : Rat) (st : PState) :
    (start_audio_unlocked env s st).overlay_file_contents = st.overlay_file_contents := by
  unfold start_audio_unlocked kill_audio_unlocked; dsimp only; split_ifs <;> simp

lemma start_audio_now_playing (env : Env) (s : Rat) (st : PState) :
    (start_audio_unlocked env s st).now_playing_contents = st.now_playing_contents := by
  unfold start_audio_unlocked kill_audio_unlocked; dsimp only; split_ifs <;> simp

attribute [simp] start_audio_playlist start_audio_encoder_proc
  start_audio_position start_audio_recent_seek start_audio_overlay_file
  start_audio_now_playing

lemma start_audio_current_cases (env : Env) (s : Rat) (st : PState) :
    (start_audio_unlocked env s st).current_index = st.current_index ∨
    (start_audio_unlocked env s st).current_index = 0 := by
  unfold start_audio_unlocked kill_audio_unlocked; dsimp only; split_ifs
  · left; rfl
  · exact normalize_index_current_cases st
  · rcases normalize_index_current_cases st with h | h
    · left; exact h
    · right; exact h
  · rcases normalize_index_current_cases st with h | h
    · left; exact h
    · right; exact h

lemma start_audio_current_of_ok (env : Env) (s : Rat) (st : PState)
    (h : ¬ (st.current_index < 0 ∨ (st.playlist.length : Int) ≤ st.current_index)) :
    (start_audio_unlocked env s st).current_index = st.current_index := by
  unfold start_audio_unlocked kill_audio_unlocked
  dsimp only
  split_ifs
  · rfl
  · exact normalize_index_current_of_ok st h
  · exact normalize_index_current_of_ok st h
  · exact normalize_index_current_of_ok st h

lemma start_pipeline_playlist (env : Env) (s : Rat) (st : PState) :
    (start_pipeline_unlocked env s st).playlist = st.playlist := by
  unfold start_pipeline_unlocked; dsimp only; split_ifs <;> simp

lemma start_pipeline_recent_seek (env : Env) (s : Rat) (st : PState) :
    (start_pipeline_unlocked env s st).recent_seek_time = st.recent_seek_time := by
  unfold start_pipeline_unlocked; dsimp only; split_ifs <;> simp

lemma start_pipeline_overlay_file (env : Env) (s : Rat) (st : PState) :
    (start_pipeline_unlocked env s st).overlay_file_contents = st.overlay_file_contents := by
  unfold start_pipeline_unlocked; dsimp only; split_ifs <;> simp

lemma start_pipeline_now_playing (env : Env) (s : Rat) (st : PState) :
    (start_pipeline_unlocked env s st).now_playing_contents = st.now_playing_contents := by
  unfold start_pipeline_unlocked; dsimp only; split_ifs <;> simp

attribute [simp] start_pipeline_playlist start_pipeline_recent_seek
  start_pipeline_overlay_file start_pipeline_now_playing

lemma start_pipeline_position (env : Env) (s : Rat) (st : PState)
    (hpos : st.position_sec = s) (hs : 0 ≤ s) :
    (start_pipeline_unlocked env s st).position_sec = s := by
  unfold start_pipeline_unlocked; dsimp only
  split_ifs <;> simp [hpos, max_eq_right hs]

lemma start_pipeline_current_cases (env : Env) (s : Rat) (st : PState) :
    (start_pipeline_unlocked env s st).current_index = st.current_index ∨
    (start_pipeline_unlocked env s st).current_index = 0 := by
  unfold start_pipeline_unlocked
  dsimp only
  split_ifs
  · exact Or.inl rfl
  · exact Or.inl rfl
  · have h := start_audio_current_cases env s (start_encoder_unlocked env st)
    rw [start_encoder_current env st] at h
    exact h
  · exact Or.inl (start_encoder_current env st)

lemma kill_audio_encoder_proc (st : PState) :
    (kill_audio_unlocked st).encoder_proc = st.encoder_proc := rfl

lemma kill_audio_playlist (st : PState) :
    (kill_audio_unlocked st).playlist = st.playlist := rfl

lemma kill_audio_current (st : PState) :
    (kill_audio_unlocked st).current_index = st.current_index := rfl

lemma kill_ffmpeg_playlist (st : PState) :
    (kill_ffmpeg_unlocked st).playlist = st.playlist := rfl

lemma kill_ffmpeg_current (st : PState) :
    (kill_ffmpeg_unlocked st).current_index = st.current_index := rfl

lemma kill_ffmpeg_overlay_file (st : PState) :
    (kill_ffmpeg_unlocked st).overlay_file_contents = st.overlay_file_contents := rfl

lemma kill_ffmpeg_now_playing (st : PState) :
    (kill_ffmpeg_unlocked st).now_playing_contents = st.now_playing_contents := rfl

attribute [simp] kill_audio_encoder_proc kill_audio_playlist kill_audio_current
  kill_ffmpeg_playlist kill_ffmpeg_current kill_ffmpeg_overlay_file
  kill_ffmpeg_now_playing

lemma advance_finish_encoder_of_alive (env : Env) (st2 : PState)
    (h : encoder_alive env st2 = true) :
    (advance_finish env st2).encoder_proc = st2.encoder_proc := by
  unfold advance_finish
  dsimp only
  rw [start_encoder_of_alive env st2 h]
  split_ifs <;> simp

lemma advance_finish_playlist (env : Env) (st2 : PState) :
    (advance_finish env st2).playlist = st2.playlist := by
  unfold advance_finish; dsimp only; split_ifs <;> simp

lemma advance_finish_current_cases (env : Env) (st2 : PState) :
    (advance_finish env st2).current_index = st2.current_index ∨
    (advance_finish env st2).current_index = 0 := by
  unfold advance_finish
  dsimp only
  split_ifs
  · have h := start_audio_current_cases env 0 (start_encoder_unlocked env st2)
    rw [start_encoder_current env st2] at h
    exact h
  · exact Or.inl (start_encoder_current env st2)

lemma advance_finish_current_of_ok (env : Env) (st2 : PState)
    (h : ¬ (st2.current_index < 0 ∨ (st2.playlist.length : Int) ≤ st2.current_index)) :
    (advance_finish env st2).current_index = st2.current_index := by
  unfold advance_finish
  dsimp only
  split_ifs
  · have h2 := start_audio_current_of_ok env 0 (start_encoder_unlocked env st2) (by simpa using h)
    rw [start_encoder_current env st2] at h2
    exact h2
  · exact start_encoder_current env st2

lemma advance_finish_position_of_zero (env : Env) (st2 : PState)
    (h : st2.position_sec = 0) :
    (advance_finish env st2).position_sec = 0 := by
  unfold advance_finish; dsimp only; split_ifs <;> simp [h]

lemma advance_finish_overlay_file (env : Env) (st2 : PState) :
    (advance_finish env st2).overlay_file_contents = st2.overlay_file_contents := by
  unfold advance_finish; dsimp only; split_ifs <;> simp

lemma advance_finish_now_playing (env : Env) (st2 : PState) :
    (advance_finish env st2).now_playing_contents = st2.now_playing_contents := by
  unfold advance_finish; dsimp only; split_ifs <;> simp

lemma advance_encoder_of_alive (env : Env) (lq : Bool) (st : PState)
    (halive : encoder_alive env st = true) :
    (advance_track_unlocked env lq st).encoder_proc = st.encoder_proc := by
  unfold advance_track_unlocked
  dsimp only
  split_ifs
  · rfl
  · simp
  · refine (advance_finish_encoder_of_alive env _ ?_).trans ?_
    · exact encoder_alive_true_of env (by simp) halive
    · simp
  · refine (advance_finish_encoder_of_alive env _ ?_).trans ?_
    · exact encoder_alive_true_of env (by simp) halive
    · simp

/-
Concrete fixtures used by the witnesses and counterexamples: an environment
where every process keeps running and spawns succeed, and a playing state
with a two-track playlist of known durations.
-/

def env_base : Env :=
  { poll := fun _ => none
    spawn_encoder_ok := true
    spawn_audio_ok := true
    restart_raises := false
    now := 100
    probe_raw := fun _ => none }

def st_play : PState :=
  { init_state true with
      playlist := ["a.mp3", "b.mp3"]
      current_index := 0
      status := "playing"
      video_file := some "v.mp4"
      encoder_proc := some 0
      audio_proc := some 1
      next_pid := 2
      track_durations := [("a.mp3", 10), ("b.mp3", 10)] }

/-- C2: during skip_next, or a natural end-of-track advance performed by the
PCM pump at EOF, while status is "playing" and the encoder process is alive,
the encoder process handle is the same before and after the operation: the
encoder is neither killed nor respawned. -/
theorem C2_no_encoder_churn (env : Env) (st : PState)
    (hplay : st.status = "playing")
    (halive : encoder_alive env st = true) :
    (skip_next env st).encoder_proc = st.encoder_proc ∧
    ((pump_eof_step env st).2).encoder_proc = st.encoder_proc := by
  constructor
  · exact advance_encoder_of_alive env true st halive
  · unfold pump_eof_step
    dsimp only
    split_ifs
    · exact advance_encoder_of_alive env true st halive
    · rfl

/-- Witness for C2 at the concrete playing state st_play with a live
encoder handle. -/
theorem C2_no_encoder_churn_witness :
    st_play.status = "playing" ∧ encoder_alive env_base st_play = true ∧
    (skip_next env_base st_play).encoder_proc = st_play.encoder_proc :=
  ⟨rfl, rfl, (C2_no_encoder_churn env_base st_play rfl rfl).1⟩

/-- C3: for every non-empty playlist with an in-range index, advancing at the
last index with loop_queue=true sets current_index to 0; with
loop_queue=false it kills the audio decoder, sets status "stopped" and
position_sec 0; when not at the last index the index increments; and in
every advance that is not the no-loop stop case, position_sec becomes 0.
Both the streamer_core and the playlist_mixin variant are covered. -/
theorem C3_advance_wraparound (env : Env) (st : PState) (lq : Bool)
    (hne : st.playlist ≠ [])
    (h0 : 0 ≤ st.current_index)
    (h1 : st.current_index < (st.playlist.length : Int)) :
    (st.current_index = (st.playlist.length : Int) - 1 →
      (advance_track_unlocked env true st).current_index = 0 ∧
      (advance_track_unlocked_mixin env true st).current_index = 0) ∧
    (st.current_index = (st.playlist.length : Int) - 1 →
      ((advance_track_unlocked env false st).audio_proc = none ∧
       (advance_track_unlocked env false st).status = "stopped" ∧
       (advance_track_unlocked env false st).position_sec = 0) ∧
      ((advance_track_unlocked_mixin env false st).audio_proc = none ∧
       (advance_track_unlocked_mixin env false st).status = "stopped" ∧
       (advance_track_unlocked_mixin env false st).position_sec = 0)) ∧
    (st.current_index ≠ (st.playlist.length : Int) - 1 →
      (advance_track_unlocked env lq st).current_index = st.current_index + 1 ∧
      (advance_track_unlocked_mixin env lq st).current_index = st.current_index + 1) ∧
    (¬ (st.current_index = (st.playlist.length : Int) - 1 ∧ lq = false) →
      (advance_track_unlocked env lq st).position_sec = 0 ∧
      (advance_track_unlocked_mixin env lq st).position_sec = 0) := by
  have hg : ¬ (st.current_index < 0 ∨ (st.playlist.length : Int) ≤ st.current_index) := by
    omega
  have hnorm : normalize_index st = st := normalize_index_of_ok st hg
  have hemp : st.playlist.isEmpty = false := by
    simpa [List.isEmpty_iff] using hne
  have hlen : 1 ≤ (st.playlist.length : Int) := by
    have hpos := List.length_pos.mpr hne
    omega
  refine ⟨?_, ?_, ?_, ?_⟩
  · intro hlast
    constructor
    · have hstep : advance_track_unlocked env true st =
          advance_finish env { st with current_index := 0, position_sec := 0 } := by
        unfold advance_track_unlocked
        dsimp only
        rw [hnorm]
        simp [hemp, hlast]
      rw [hstep]
      exact (advance_finish_current_of_ok env _ (by dsimp only; omega)).trans rfl
    · have h2 : st.current_index + 1 = (st.playlist.length : Int) := by omega
      have hstep : advance_track_unlocked_mixin env true st =
          advance_finish env { st with current_index := 0, position_sec := 0 } := by
        unfold advance_track_unlocked_mixin
        dsimp only
        rw [hnorm]
        simp [hemp, hlast, h2, Int.emod_self]
      rw [hstep]
      exact (advance_finish_current_of_ok env _ (by dsimp only; omega)).trans rfl
  · intro hlast
    have hstep : advance_track_unlocked env false st =
        { kill_audio_unlocked st with status := "stopped", position_sec := 0 } := by
      unfold advance_track_unlocked
      dsimp only
      rw [hnorm]
      simp [hemp, hlast]
    have hstep2 : advance_track_unlocked_mixin env false st =
        { kill_audio_unlocked st with status := "stopped", position_sec := 0 } := by
      unfold advance_track_unlocked_mixin
      dsimp only
      rw [hnorm]
      simp [hemp, hlast]
    rw [hstep, hstep2]
    exact ⟨⟨rfl, rfl, rfl⟩, ⟨rfl, rfl, rfl⟩⟩
  · intro hnl
    constructor
    · have hstep : advance_track_unlocked env lq st =
          advance_finish env { st with current_index := st.current_index + 1, position_sec := 0 } := by
        unfold advance_track_unlocked
        dsimp only
        rw [hnorm]
        simp [hemp, hnl]
      rw [hstep]
      exact (advance_finish_current_of_ok env _ (by dsimp only; omega)).trans rfl
    · have hnext : (if lq = true then
            (st.current_index + 1) % (st.playlist.length : Int)
          else min (st.current_index + 1) ((st.playlist.length : Int) - 1)) =
          st.current_index + 1 := by
        split_ifs
        · exact Int.emod_eq_of_lt (by omega) (by omega)
        · exact min_eq_left (by omega)
      have hstep : advance_track_unlocked_mixin env lq st =
          advance_finish env { st with current_index := st.current_index + 1, position_sec := 0 } := by
        unfold advance_track_unlocked_mixin
        dsimp only
        rw [hnorm]
        simp [hemp, hnl, hnext]
      rw [hstep]
      exact (advance_finish_current_of_ok env _ (by dsimp only; omega)).trans rfl
  · intro hd
    constructor
    · have hstep : advance_track_unlocked env lq st =
          advance_finish env { st with
            current_index :=
              if st.current_index = (st.playlist.length : Int) - 1 then 0
              else st.current_index + 1,
            position_sec := 0 } := by
        unfold advance_track_unlocked
        dsimp only
        rw [hnorm]
        simp [hemp, hd]
      rw [hstep]
      exact advance_finish_position_of_zero env _ rfl
    · have hstep : advance_track_unlocked_mixin env lq st =
          advance_finish env { st with
            current_index :=
              if lq = true then (st.current_index + 1) % (st.playlist.length : Int)
              else min (st.current_index + 1) ((st.playlist.length : Int) - 1),
            position_sec := 0 } := by
        unfold advance_track_unlocked_mixin
        dsimp only
        rw [hnorm]
        simp [hemp, hd]
      rw [hstep]
      exact advance_finish_position_of_zero env _ rfl

/-- Fixture for the C3 witness: the playing state at the last playlist
index. -/
def st_last : PState := { st_play with current_index := 1 }

/-- Witness for C3 at the concrete two-track state st_last. -/
theorem C3_advance_wraparound_witness :
    st_last.playlist ≠ [] ∧
    (advance_track_unlocked env_base true st_last).current_index = 0 ∧
    (advance_track_unlocked env_base false st_last).status = "stopped" :=
  ⟨by decide,
   ((C3_advance_wraparound env_base st_last true (by decide) (by decide)
      (by decide)).1 (by decide)).1,
   ((((C3_advance_wraparound env_base st_last false (by decide) (by decide)
      (by decide)).2.1) (by decide)).1).2.1⟩

lemma pump_natural_end_iff (env : Env) (st : PState) :
    (!st.stop_audio_pump && decide (st.status = "playing")
      && !st.playlist.isEmpty
      && !(decide (st.recent_seek_time ≠ 0)
            && decide (env.now - st.recent_seek_time < 2))) = true ↔
    (st.stop_audio_pump = false ∧ st.status = "playing" ∧ st.playlist ≠ [] ∧
     ¬ (st.recent_seek_time ≠ 0 ∧ env.now - st.recent_seek_time < 2)) := by
  simp [Bool.and_eq_true, Bool.not_eq_true', List.isEmpty_iff, and_assoc,
    Decidable.not_and_iff_or_not]
  tauto

/-- C1 (amended): on decoder EOF the pump invokes the track advance with
loop_queue=true if and only if it has not been signaled to stop, status is
"playing", the playlist is non-empty, and the EOF is not within 2 seconds of
the most recent seek timestamp (a zero timestamp meaning no seek ever
happened); in every other case it exits without changing the state. -/
theorem C1_pump_eof_amended (env : Env) (st : PState) :
    ((pump_eof_step env st).1 = true ↔
      (st.stop_audio_pump = false ∧ st.status = "playing" ∧ st.playlist ≠ [] ∧
       ¬ (st.recent_seek_time ≠ 0 ∧ env.now - st.recent_seek_time < 2))) ∧
    ((pump_eof_step env st).1 = false → (pump_eof_step env st).2 = st) ∧
    ((pump_eof_step env st).1 = true →
      (pump_eof_step env st).2 = advance_track_unlocked env true st) := by
  unfold pump_eof_step
  dsimp only
  split_ifs with h
  · exact ⟨⟨fun _ => (pump_natural_end_iff env st).mp h, fun _ => rfl⟩,
      fun hc => by simp at hc, fun _ => rfl⟩
  · refine ⟨⟨fun hc => by simp at hc, fun hc => absurd ((pump_natural_end_iff env st).mpr hc) h⟩,
      fun _ => rfl, fun hc => by simp at hc⟩

/-- C1 (counterexample to the claim as stated): after load_playlist with an
empty list on a playing state, the pump is not signaled to stop, status is
"playing" and no seek is recent, yet the EOF branch does not advance, because
the code additionally requires a non-empty playlist. -/
theorem C1_counterexample :
    (load_playlist env_base [] st_play).status = "playing" ∧
    (load_playlist env_base [] st_play).stop_audio_pump = false ∧
    ¬ ((load_playlist env_base [] st_play).recent_seek_time ≠ 0 ∧
       env_base.now - (load_playlist env_base [] st_play).recent_seek_time < 2) ∧
    (pump_eof_step env_base (load_playlist env_base [] st_play)).1 = false := by
  refine ⟨rfl, rfl, ?_, ?_⟩
  · intro hc
    exact hc.1 rfl
  · rfl

/-- Witness for C1 (amended) at the concrete playing state st_play. -/
theorem C1_pump_eof_amended_witness :
    (pump_eof_step env_base st_play).1 = true ∧
    (pump_eof_step env_base st_play).2 = advance_track_unlocked env_base true st_play := by
  have h := C1_pump_eof_amended env_base st_play
  have h1 : (pump_eof_step env_base st_play).1 = true :=
    h.1.mpr ⟨rfl, rfl, by decide, fun hc => hc.1 rfl⟩
  exact ⟨h1, h.2.2 h1⟩

lemma seek_tail_position (env : Env) (c : Prop) [Decidable c] (s1 : Rat) (st1 : PState)
    (hpos : st1.position_sec = s1) (hs : 0 ≤ s1) :
    (if c then start_pipeline_unlocked env s1 st1
     else st1).position_sec = s1 := by
  split_ifs with hp
  · exact start_pipeline_position env s1 st1 hpos hs
  · exact hpos

lemma seek_tail_recent (env : Env) (c : Prop) [Decidable c] (s1 : Rat) (st1 : PState) :
    (if c then start_pipeline_unlocked env s1 st1
     else st1).recent_seek_time = st1.recent_seek_time := by
  split_ifs with hp
  · exact start_pipeline_recent_seek env s1 st1
  · rfl

/-- Formulation of the C4 claim, written from the claim text: a negative s is
clamped to 0; when the current track duration D is known (present in the
duration map and positive) and s is at least D, the stored position becomes
max (D - 1) 0; otherwise it becomes s. -/
def seek_position_spec (st : PState) (s : Rat) : Rat :=
  let s0 : Rat := if s < 0 then 0 else s
  match current_track_duration st with
  | some d => if s0 ≥ d then max (d - 1) 0 else s0
  | none => s0

/-- C4: for every input s, seek stores exactly the clamped position described
by the claim and stamps the recent-seek timestamp with the current monotonic
time, for any state whose current index is in range. -/
theorem C4_seek_contract (env : Env) (st : PState) (s : Rat)
    (h0 : 0 ≤ st.current_index)
    (h1 : st.current_index < (st.playlist.length : Int)) :
    (seek env s st).position_sec = seek_position_spec st s ∧
    (seek env s st).recent_seek_time = env.now := by
  have hne : st.playlist ≠ [] := by
    intro h
    rw [h] at h1
    simp at h1
    omega
  have hemp : st.playlist.isEmpty = false := by
    simpa [List.isEmpty_iff] using hne
  have hg : ¬ (st.current_index < 0 ∨ (st.playlist.length : Int) ≤ st.current_index) := by
    omega
  have hs0 : 0 ≤ (if s < 0 then (0 : Rat) else s) := by
    split_ifs with h
    · exact le_refl 0
    · exact le_of_not_lt h
  have hdur : (if st.playlist.isEmpty then (none : Option Rat)
      else if st.current_index < 0 ∨ (st.playlist.length : Int) ≤ st.current_index then none
      else current_track_duration st) = current_track_duration st := by
    simp [hemp, hg]
  unfold seek
  dsimp only
  rw [hdur]
  constructor
  · refine (seek_tail_position env _ _ _ rfl ?_).trans ?_
    · rcases current_track_duration st with _ | d
      · exact hs0
      · dsimp only
        split_ifs <;> first
          | exact le_max_right _ _
          | exact le_refl 0
          | exact le_of_not_lt (by assumption)
    · unfold seek_position_spec
      dsimp only
  · exact (seek_tail_recent env _ _ _).trans rfl

/-- Witness for C4: seeking to 15 in a 10-second track at the concrete
playing state st_play. -/
theorem C4_seek_contract_witness :
    0 ≤ st_play.current_index ∧
    st_play.current_index < (st_play.playlist.length : Int) ∧
    (seek env_base 15 st_play).position_sec = seek_position_spec st_play 15 :=
  ⟨by decide, by decide,
   (C4_seek_contract env_base st_play 15 (by decide) (by decide)).1⟩

/-- Index invariant of the claim: whenever the playlist is non-empty, the
current index is in range. -/
def index_ok (st : PState) : Prop :=
  st.playlist ≠ [] → 0 ≤ st.current_index ∧ st.current_index < (st.playlist.length : Int)

lemma index_ok_propagate {st st2 : PState} (h : index_ok st)
    (hp : st2.playlist = st.playlist)
    (hi : st2.current_index = st.current_index ∨ st2.current_index = 0) :
    index_ok st2 := by
  intro hne
  have hne2 : st.playlist ≠ [] := by rw [← hp]; exact hne
  have hlen : 0 < st.playlist.length := List.length_pos.mpr hne2
  rcases hi with hi | hi
  · rw [hi, hp]
    exact h hne2
  · rw [hi, hp]
    refine ⟨le_refl 0, ?_⟩
    exact_mod_cast hlen

lemma normalize_index_bounds (st : PState) (hne : st.playlist ≠ []) :
    0 ≤ (normalize_index st).current_index ∧
    (normalize_index st).current_index < ((normalize_index st).playlist.length : Int) := by
  have hlen : 0 < st.playlist.length := List.length_pos.mpr hne
  unfold normalize_index
  split_ifs with h
  · refine ⟨le_refl 0, ?_⟩
    show (0 : Int) < (st.playlist.length : Int)
    exact_mod_cast hlen
  · constructor <;> omega

lemma find_index_lt_length (t : String) :
    ∀ (l : List String) (i : Nat), find_index t l = some i → i < l.length := by
  intro l
  induction l with
  | nil =>
    intro i h
    simp [find_index] at h
  | cons p rest ih =>
    intro i h
    by_cases hp : p = t
    · rw [find_index, if_pos hp] at h
      simp at h
      simp [List.length_cons]
      omega
    · rw [find_index, if_neg hp] at h
      rcases Option.map_eq_some'.mp h with ⟨j, hj, hji⟩
      have := ih j hj
      simp [← hji, List.length_cons]
      omega

lemma index_ok_ite_pipeline (env : Env) (c : Prop) [Decidable c] (s1 : Rat)
    (x : PState) (h : index_ok x) :
    index_ok (if c then start_pipeline_unlocked env s1 x else x) := by
  split_ifs
  · exact index_ok_propagate h (start_pipeline_playlist env s1 x)
      (start_pipeline_current_cases env s1 x)
  · exact h

lemma advance_index_ok (env : Env) (lq : Bool) (st : PState) (h : index_ok st) :
    index_ok (advance_track_unlocked env lq st) := by
  unfold advance_track_unlocked
  dsimp only
  split_ifs with h1 h2 h3
  · intro hne
    exact h hne
  · intro hne
    have hne2 : st.playlist ≠ [] := by
      simpa using hne
    exact normalize_index_bounds st hne2
  · -- at last index, wrapping to 0
    intro hne
    have hne2 : st.playlist ≠ [] := by
      simpa [advance_finish_playlist] using hne
    have hlen2 : 0 < (normalize_index st).playlist.length := by
      rw [normalize_index_playlist]
      exact List.length_pos.mpr hne2
    refine index_ok_propagate (fun _ => ⟨le_refl 0, ?_⟩)
      (advance_finish_playlist env _) (advance_finish_current_cases env _) hne
    show (0 : Int) < ((normalize_index st).playlist.length : Int)
    exact_mod_cast hlen2
  · -- not at last index, incrementing
    intro hne
    have hne2 : st.playlist ≠ [] := by
      simpa [advance_finish_playlist] using hne
    have hb := normalize_index_bounds st hne2
    refine index_ok_propagate ?_
      (advance_finish_playlist env _) (advance_finish_current_cases env _) hne
    intro _
    constructor
    · show 0 ≤ (normalize_index st).current_index + 1
      omega
    · show (normalize_index st).current_index + 1 <
        ((normalize_index st).playlist.length : Int)
      omega

/-- C9: whenever the playlist is non-empty, 0 <= current_index < length
holds after initialization and is preserved by load_playlist,
set_playlist_order, play_index, skip_next, seek, play, pause, stop and the
internal track advance (which normalizes an out-of-range index to 0). -/
theorem C9_index_invariant (env : Env) (st : PState) (paths : List String)
    (i : Int) (s : Rat) (lq fs : Bool)
    (hinv : index_ok st) :
    index_ok (init_state fs) ∧
    index_ok (load_playlist env paths st) ∧
    index_ok (set_playlist_order env paths st) ∧
    index_ok (play_index env i st) ∧
    index_ok (skip_next env st) ∧
    index_ok (seek env s st) ∧
    index_ok (play env st) ∧
    index_ok (pause env st) ∧
    index_ok (stop st) ∧
    index_ok (advance_track_unlocked env lq st) := by
  refine ⟨?_, ?_, ?_, ?_, ?_, ?_, ?_, ?_, ?_, ?_⟩
  · intro hne
    exact absurd rfl hne
  · intro hne
    have hp : paths ≠ [] := hne
    have hlen : 0 < paths.length := List.length_pos.mpr hp
    refine ⟨le_refl 0, ?_⟩
    show (0 : Int) < (paths.length : Int)
    exact_mod_cast hlen
  · unfold set_playlist_order update_durations_for_playlist_unlocked
    dsimp only
    intro hne
    have hp : paths ≠ [] := by simpa using hne
    have hlen : 0 < paths.length := List.length_pos.mpr hp
    rcases hoc : (if st.playlist.isEmpty then (none : Option String)
        else st.playlist.get? st.current_index.toNat) with _ | oc
    all_goals dsimp only
    · refine ⟨le_refl 0, ?_⟩
      show (0 : Int) < (paths.length : Int)
      exact_mod_cast hlen
    · rcases hfi : find_index oc paths with _ | j
      all_goals dsimp only
      · refine ⟨le_refl 0, ?_⟩
        show (0 : Int) < (paths.length : Int)
        exact_mod_cast hlen
      · have hj := find_index_lt_length oc paths j hfi
        constructor
        · show (0 : Int) ≤ (j : Int)
          exact_mod_cast Nat.zero_le j
        · show (j : Int) < (paths.length : Int)
          exact_mod_cast hj
  · unfold play_index
    split_ifs with h1 h2
    · exact hinv
    · exact hinv
    · refine index_ok_propagate ?_ (start_pipeline_playlist env _ _)
        (start_pipeline_current_cases env _ _)
      intro _
      constructor
      · show (0 : Int) ≤ i
        omega
      · show i < (st.playlist.length : Int)
        omega
  · exact advance_index_ok env true st hinv
  · unfold seek
    dsimp only
    exact index_ok_ite_pipeline env _ _ _ (fun hne => hinv hne)
  · unfold play
    split_ifs with h1
    · exact index_ok_propagate hinv (start_pipeline_playlist env _ _)
        (start_pipeline_current_cases env _ _)
    · exact hinv
  · intro hne
    exact hinv hne
  · intro hne
    exact hinv hne
  · exact advance_index_ok env lq st hinv

/-- Witness for C9 at the concrete playing state st_play. -/
theorem C9_index_invariant_witness :
    index_ok st_play ∧ index_ok (skip_next env_base st_play) ∧
    index_ok (load_playlist env_base ["c.mp3"] st_play) :=
  ⟨fun _ => ⟨by decide, by decide⟩,
   (C9_index_invariant env_base st_play ["c.mp3"] 0 0 true true
     (fun _ => ⟨by decide, by decide⟩)).2.2.2.2.1,
   (C9_index_invariant env_base st_play ["c.mp3"] 0 0 true true
     (fun _ => ⟨by decide, by decide⟩)).2.1⟩

/-- Settings dict for the C5 counterexample: only video_bitrate given. -/
def cfg_c5 : EncoderCfg :=
  { audio_bitrate := none
    video_bitrate := some "1000k"
    maxrate := none
    bufsize := none
    video_fps := none }

/-- C5 (counterexample to the claim as stated): at a playing state,
set_encoder_settings updates the settings field but leaves every worker
handle and the pid counter untouched, so no worker is killed or respawned
and no pipeline restart takes place. -/
theorem C5_counterexample :
    st_play.status = "playing" ∧
    (set_encoder_settings cfg_c5 st_play).video_bitrate = "1000k" ∧
    (set_encoder_settings cfg_c5 st_play).encoder_proc = st_play.encoder_proc ∧
    (set_encoder_settings cfg_c5 st_play).audio_proc = st_play.audio_proc ∧
    (set_encoder_settings cfg_c5 st_play).video_proc = st_play.video_proc ∧
    (set_encoder_settings cfg_c5 st_play).next_pid = st_play.next_pid ∧
    (set_encoder_settings cfg_c5 st_play).status = st_play.status := by
  refine ⟨rfl, ?_, rfl, rfl, rfl, rfl, rfl⟩
  decide

/-- C5 (amended): while status is "playing", set_encoder_settings performs
no pipeline restart whatsoever: worker handles, the pid counter, status,
position and the pump stop flag are all unchanged; only the settings fields
are updated, taking effect at the next encoder start. -/
theorem C5_settings_no_restart (cfg : EncoderCfg) (st : PState)
    (hplay : st.status = "playing") :
    (set_encoder_settings cfg st).encoder_proc = st.encoder_proc ∧
    (set_encoder_settings cfg st).audio_proc = st.audio_proc ∧
    (set_encoder_settings cfg st).video_proc = st.video_proc ∧
    (set_encoder_settings cfg st).next_pid = st.next_pid ∧
    (set_encoder_settings cfg st).status = st.status ∧
    (set_encoder_settings cfg st).position_sec = st.position_sec ∧
    (set_encoder_settings cfg st).stop_audio_pump = st.stop_audio_pump :=
  ⟨rfl, rfl, rfl, rfl, rfl, rfl, rfl⟩

/-- Witness for C5 (amended) at the concrete playing state st_play. -/
theorem C5_settings_no_restart_witness :
    st_play.status = "playing" ∧
    (set_encoder_settings cfg_c5 st_play).next_pid = st_play.next_pid :=
  ⟨rfl, (C5_settings_no_restart cfg_c5 st_play rfl).2.2.2.1⟩

/-- C10: set_encoder_settings updates each bitrate field exactly when its
key is present with a truthy (non-empty) value, updates video_fps exactly
when the int conversion succeeds, keeps every absent field, and mutates no
other state: status, playlist, index, position, anchor, worker handles,
pump flag, durations, seek stamp and pid counter are unchanged. -/
theorem C10_settings_frame (cfg : EncoderCfg) (st : PState) :
    (∀ v, cfg.audio_bitrate = some v → v ≠ "" →
      (set_encoder_settings cfg st).audio_bitrate = v) ∧
    (cfg.audio_bitrate = none ∨ cfg.audio_bitrate = some "" →
      (set_encoder_settings cfg st).audio_bitrate = st.audio_bitrate) ∧
    (∀ v, cfg.video_bitrate = some v → v ≠ "" →
      (set_encoder_settings cfg st).video_bitrate = v) ∧
    (cfg.video_bitrate = none ∨ cfg.video_bitrate = some "" →
      (set_encoder_settings cfg st).video_bitrate = st.video_bitrate) ∧
    (∀ v, cfg.maxrate = some v → v ≠ "" →
      (set_encoder_settings cfg st).maxrate = v) ∧
    (cfg.maxrate = none ∨ cfg.maxrate = some "" →
      (set_encoder_settings cfg st).maxrate = st.maxrate) ∧
    (∀ v, cfg.bufsize = some v → v ≠ "" →
      (set_encoder_settings cfg st).bufsize = v) ∧
    (cfg.bufsize = none ∨ cfg.bufsize = some "" →
      (set_encoder_settings cfg st).bufsize = st.bufsize) ∧
    (∀ n, cfg.video_fps = some (some n) →
      (set_encoder_settings cfg st).video_fps = n) ∧
    (cfg.video_fps = none ∨ cfg.video_fps = some none →
      (set_encoder_settings cfg st).video_fps = st.video_fps) ∧
    (set_encoder_settings cfg st).status = st.status ∧
    (set_encoder_settings cfg st).playlist = st.playlist ∧
    (set_encoder_settings cfg st).current_index = st.current_index ∧
    (set_encoder_settings cfg st).position_sec = st.position_sec ∧
    (set_encoder_settings cfg st).last_start_monotonic = st.last_start_monotonic ∧
    (set_encoder_settings cfg st).encoder_proc = st.encoder_proc ∧
    (set_encoder_settings cfg st).audio_proc = st.audio_proc ∧
    (set_encoder_settings cfg st).video_proc = st.video_proc ∧
    (set_encoder_settings cfg st).stop_audio_pump = st.stop_audio_pump ∧
    (set_encoder_settings cfg st).track_durations = st.track_durations ∧
    (set_encoder_settings cfg st).recent_seek_time = st.recent_seek_time ∧
    (set_encoder_settings cfg st).next_pid = st.next_pid := by
  unfold set_encoder_settings truthy_or_keep
  refine ⟨?_, ?_, ?_, ?_, ?_, ?_, ?_, ?_, ?_, ?_,
    rfl, rfl, rfl, rfl, rfl, rfl, rfl, rfl, rfl, rfl, rfl, rfl⟩
  · intro v hv hne
    dsimp only
    rw [hv]
    dsimp only
    rw [if_neg hne]
  · rintro (hv | hv) <;> rw [hv]
    simp
  · intro v hv hne
    dsimp only
    rw [hv]
    dsimp only
    rw [if_neg hne]
  · rintro (hv | hv) <;> rw [hv]
    simp
  · intro v hv hne
    dsimp only
    rw [hv]
    dsimp only
    rw [if_neg hne]
  · rintro (hv | hv) <;> rw [hv]
    simp
  · intro v hv hne
    dsimp only
    rw [hv]
    dsimp only
    rw [if_neg hne]
  · rintro (hv | hv) <;> rw [hv]
    simp
  · intro n hn
    dsimp only
    rw [hn]
  · rintro (hn | hn) <;> rw [hn]

/-- Settings dict for the C10 witness: truthy audio bitrate, falsy video
bitrate, absent maxrate, truthy bufsize, failing fps conversion. -/
def cfg_c10 : EncoderCfg :=
  { audio_bitrate := some "256k"
    video_bitrate := some ""
    maxrate := none
    bufsize := some "2000k"
    video_fps := some none }

/-- Witness for C10 at the concrete state st_play with cfg_c10. -/
theorem C10_settings_frame_witness :
    (set_encoder_settings cfg_c10 st_play).audio_bitrate = "256k" ∧
    (set_encoder_settings cfg_c10 st_play).video_bitrate = st_play.video_bitrate ∧
    (set_encoder_settings cfg_c10 st_play).video_fps = st_play.video_fps :=
  ⟨(C10_settings_frame cfg_c10 st_play).1 "256k" rfl (by decide),
   (C10_settings_frame cfg_c10 st_play).2.2.2.1 (Or.inr rfl),
   (C10_settings_frame cfg_c10 st_play).2.2.2.2.2.2.2.2.2.1 (Or.inr rfl)⟩

/-- Environment of watcher iteration k in the C6 scenario: the encoder
spawned in the previous iteration (pid 2k) has exited with code 1, every
other process is alive, spawns succeed, nothing raises, the clock is 0. -/
def env_c6 (k : Nat) : Env :=
  { poll := fun n => if n = 2 * k then some 1 else none
    spawn_encoder_ok := true
    spawn_audio_ok := true
    restart_raises := false
    now := 0
    probe_raw := fun _ => none }

/-- Playing one-track state for the C6 scenario, encoder pid 0, decoder
pid 1. -/
def st_c6 : PState :=
  { st_play with playlist := ["a.mp3"], track_durations := [] }

/-- C6 (evaluation at the failing input): five consecutive non-zero encoder
exits while playing, each automatic restart succeeding, leave status
"playing" and the consecutive-failure counter at 0; the counter is never
incremented nor compared against five, so the status never becomes "error"
as the claim requires. -/
theorem C6_five_crashes_evaluated :
    st_c6.status = "playing" ∧
    (watcher_run [env_c6 0, env_c6 1, env_c6 2, env_c6 3, env_c6 4] st_c6).status
      = "playing" ∧
    (watcher_run [env_c6 0, env_c6 1, env_c6 2, env_c6 3, env_c6 4] st_c6).consecutive_failures
      = 0 := by
  refine ⟨rfl, ?_, ?_⟩ <;>
    simp +decide [watcher_run, watcher_step, st_c6, st_play, init_state, env_c6,
      kill_audio_unlocked, kill_encoder_unlocked, kill_ffmpeg_unlocked,
      restart_full_pipeline_unlocked, start_pipeline_unlocked,
      start_encoder_unlocked, start_audio_unlocked, normalize_index,
      encoder_alive, get_position_unlocked]

lemma probe_duration_nonneg (r : Option Rat) (v : Rat)
    (h : probe_duration r = some v) : 0 ≤ v := by
  rcases r with _ | w
  · simp [probe_duration] at h
  · unfold probe_duration at h
    dsimp only at h
    split_ifs at h with hw
    all_goals simp at h
    exact h ▸ le_of_not_lt hw

lemma dict_get_nonneg : ∀ (m : List (String × Rat)),
    (∀ kv ∈ m, 0 ≤ kv.2) → ∀ (k : String) (v : Rat), dict_get m k = some v → 0 ≤ v := by
  intro m
  induction m with
  | nil =>
    intro _ k v hv
    simp [dict_get] at hv
  | cons kv rest ih =>
    intro h k v hv
    rw [dict_get] at hv
    split_ifs at hv with hk
    · have h0 := h kv (by simp)
      simp at hv
      rw [← hv]
      exact h0
    · exact ih (fun x hx => h x (by simp [hx])) k v hv

lemma build_durations_nonneg (env : Env) (old : List (String × Rat))
    (hold : ∀ kv ∈ old, 0 ≤ kv.2) :
    ∀ (l : List String), ∀ kv ∈ build_durations env old l, 0 ≤ kv.2 := by
  intro l
  induction l with
  | nil =>
    intro kv hkv
    simp [build_durations] at hkv
  | cons p rest ih =>
    intro kv hkv
    rw [build_durations] at hkv
    rcases List.mem_append.mp hkv with hm | hm
    · rcases hd : dict_get old p with _ | d
      · rw [hd] at hm
        rcases hp : probe_duration (env.probe_raw p) with _ | d2
        · rw [hp] at hm
          simp at hm
        · rw [hp] at hm
          simp at hm
          rw [hm]
          exact probe_duration_nonneg _ _ hp
      · rw [hd] at hm
        simp at hm
        rw [hm]
        exact dict_get_nonneg old hold p d hd
    · exact ih kv hm

/-- C7 (counterexample to the claim as stated): an ffprobe output parsing to
0.0 passes the guard (which only rejects values below zero) and is returned,
yet 0 is not positive. -/
theorem C7_counterexample :
    probe_duration (some 0) = some 0 ∧ ¬ (0 : Rat) < 0 :=
  ⟨by norm_num [probe_duration], lt_irrefl 0⟩

/-- C7 (amended): the duration probe returns a non-negative value or absence
on any error; consequently, whenever every value already stored in the
duration map is non-negative, every value after a refresh is non-negative. -/
theorem C7_probe_nonneg_amended :
    (∀ r v, probe_duration r = some v → 0 ≤ v) ∧
    (∀ env st, (∀ kv ∈ st.track_durations, 0 ≤ kv.2) →
      ∀ kv ∈ (update_durations_for_playlist_unlocked env st).track_durations, 0 ≤ kv.2) := by
  constructor
  · exact fun r v h => probe_duration_nonneg r v h
  · intro env st h kv hkv
    exact build_durations_nonneg env st.track_durations h st.playlist kv hkv

/-- Witness for C7 (amended) at the parsed probe value 3. -/
theorem C7_probe_nonneg_amended_witness :
    probe_duration (some 3) = some 3 ∧ (0 : Rat) ≤ 3 :=
  ⟨by norm_num [probe_duration],
   C7_probe_nonneg_amended.1 (some 3) 3 (by norm_num [probe_duration])⟩

lemma start_encoder_overlay_text (env : Env) (st : PState) :
    (start_encoder_unlocked env st).overlay_text = st.overlay_text := by
  unfold start_encoder_unlocked kill_encoder_unlocked; dsimp only; split_ifs <;> rfl

lemma start_audio_overlay_text (env : Env) (s : Rat) (st : PState) :
    (start_audio_unlocked env s st).overlay_text = st.overlay_text := by
  unfold start_audio_unlocked kill_audio_unlocked normalize_index
  dsimp only
  split_ifs <;> rfl

attribute [simp] start_encoder_overlay_text start_audio_overlay_text

lemma start_pipeline_overlay_text (env : Env) (s : Rat) (st : PState) :
    (start_pipeline_unlocked env s st).overlay_text = st.overlay_text := by
  unfold start_pipeline_unlocked; dsimp only; split_ifs <;> simp

/-- C8 (evaluation at the failing input): the two overlay files are created
with empty contents at initialization, but set_overlay_text only stores the
text in memory (restarting the pipeline while playing) and never writes the
overlay file: its contents are unchanged in every state, and after
set_overlay_text "hello" on a fresh state the file still holds "". -/
theorem C8_overlay_file_not_written :
    (init_state true).overlay_file_contents = some "" ∧
    (init_state true).now_playing_contents = some "" ∧
    (∀ env text st,
      (set_overlay_text env text st).overlay_text = text ∧
      (set_overlay_text env text st).overlay_file_contents = st.overlay_file_contents ∧
      (set_overlay_text env text st).now_playing_contents = st.now_playing_contents) ∧
    (set_overlay_text env_base "hello" (init_state true)).overlay_file_contents = some "" := by
  refine ⟨rfl, rfl, ?_, ?_⟩
  · intro env text st
    unfold set_overlay_text restart_full_pipeline_unlocked
    dsimp only
    split_ifs with hp
    · refine ⟨?_, ?_, ?_⟩
      · rw [start_pipeline_overlay_text]
        rfl
      · rw [start_pipeline_overlay_file]
        rfl
      · rw [start_pipeline_now_playing]
        rfl
    · exact ⟨rfl, rfl, rfl⟩
  · rfl
